import Mathlib

/-!
Verification of the reconciliation core of an Ansible collection for a
Terraform Enterprise style REST API.

The development shallowly embeds the Python sources:

* `plugins/module_utils/tfe_helper.py` — `TFEHelper.call_endpoint`,
  `TFEHelper.listify_comma_sep_strings_in_list`,
  `TFEHelper.get_org_name_when_exists`, `TFEHelper.is_subset`;
* `plugins/modules/tfe_workspace.py` — `main`;
* `plugins/modules/tfe_vcs_connection.py` — `main`;
* `plugins/modules/tfe_run_info.py` — the `run` parameter normalisation.

Python values flowing through these functions are JSON-like: strings,
integers, booleans, `None`, dicts with string keys and lists.  They are
embedded as the inductive type `PyVal`.  Remote API outcomes are hoisted
into explicit environment parameters: an endpoint is modelled by the
`Except` value it ultimately produces (a result, or the exception message
it raises).
-/

/-- JSON-like Python value: scalar, dict with string keys, or list. -/
inductive PyVal where
  | pstr : String → PyVal
  | pint : Int → PyVal
  | pbool : Bool → PyVal
  | pnone : PyVal
  | pdict : List (String × PyVal) → PyVal
  | plist : List PyVal → PyVal

/-- The integer a Python `bool` equals (`True == 1`, `False == 0`). -/
def bool2int (b : Bool) : Int := if b then 1 else 0

/-- Lookup in a Python dict (keys are unique in a real dict, so the first
match is the value). Returns `none` for a missing key. -/
def dictGet (d : List (String × PyVal)) (k : String) : Option PyVal :=
  (d.find? (fun kv => kv.1 == k)).map (fun kv => kv.2)

mutual

/-- Python `==` on embedded values.  Numbers and booleans compare by value
(`True == 1` holds, since `bool` is an `int` subclass), strings compare to
strings only, `None` only to `None`, dicts and lists compare deeply, and
any other cross-type comparison is `False`.  Dict equality is the same
number of keys plus every left key present on the right with a
`==`-equal value (keys of a Python dict are unique). -/
def pyEq : PyVal → PyVal → Bool
  | .pstr s, .pstr t => s == t
  | .pint m, .pint n => m == n
  | .pint m, .pbool b => m == bool2int b
  | .pbool b, .pint n => bool2int b == n
  | .pbool a, .pbool b => a == b
  | .pnone, .pnone => true
  | .pdict d, .pdict e => d.length == e.length && pyEqDictGo d e
  | .plist l, .plist m => pyEqList l m
  | _, _ => false
termination_by a _ => sizeOf a

/-- Key-wise half of Python dict equality: every key of `d` is present in
`e` with a `==`-equal value. -/
def pyEqDictGo : List (String × PyVal) → List (String × PyVal) → Bool
  | [], _ => true
  | (k, v) :: rest, e =>
      (match dictGet e k with
       | some w => pyEq v w
       | none => false) && pyEqDictGo rest e
termination_by d _ => sizeOf d

/-- Python list equality: element-wise `==`. -/
def pyEqList : List PyVal → List PyVal → Bool
  | [], [] => true
  | x :: xs, y :: ys => pyEq x y && pyEqList xs ys
  | _, _ => false
termination_by l _ => sizeOf l

end

/-- Python truthiness (`bool(v)`): empty containers, `0`, `""`, `False`
and `None` are falsy. -/
def pyTruthy : PyVal → Bool
  | .pnone => false
  | .pbool b => b
  | .pint n => n != 0
  | .pstr s => s != ""
  | .pdict d => !d.isEmpty
  | .plist l => !l.isEmpty

/-- Whether the character list `sub` occurs contiguously inside `l`
(Python substring containment). -/
def charListHasSub (sub : List Char) : List Char → Bool
  | [] => sub.isEmpty
  | c :: rest => sub.isPrefixOf (c :: rest) || charListHasSub sub rest

/-- Python `key in superset` for a string `key`.  Dicts test key
membership, lists test `==` membership on elements, strings test substring
containment; scalars (`int`, `bool`, `None`) raise `TypeError`, embedded
as `Except.error`. -/
def pyContains (superset : PyVal) (key : String) : Except Unit Bool :=
  match superset with
  | .pdict d => .ok (d.any (fun kv => kv.1 == key))
  | .plist l => .ok (l.any (fun v => pyEq (.pstr key) v))
  | .pstr s => .ok (charListHasSub key.toList s.toList)
  | _ => .error ()

/-- Python `superset[key]` for a string `key`.  Only a dict supports it
(a list or string raises `TypeError` on a string index, a scalar has no
indexing, and a missing dict key raises `KeyError`); every raising case is
`Except.error`. -/
def pyIndex (superset : PyVal) (key : String) : Except Unit PyVal :=
  match superset with
  | .pdict d =>
      match dictGet d key with
      | some v => .ok v
      | none => .error ()
  | _ => .error ()

/-- The values produced by Python iteration over `superset`: a list yields
its elements, a dict its keys, a string its characters (as one-character
strings); scalars are not iterable and raise `TypeError`. -/
def pyIter : PyVal → Except Unit (List PyVal)
  | .plist l => .ok l
  | .pdict d => .ok (d.map (fun kv => .pstr kv.1))
  | .pstr s => .ok (s.toList.map (fun c => .pstr (String.singleton c)))
  | _ => .error ()

mutual

/-- `TFEHelper.is_subset` from `tfe_helper.py`.  A dict is a subset when
every key is contained in the superset with a recursively-subset value
(`all(key in superset and is_subset(val, superset[key]) ...)`, with
Python's short-circuit evaluation); a list is a subset when every element
is a subset of some element of the superset
(`all(any(is_subset(subitem, superitem) ...) ...)`); anything else is a
plain value compared with `==`.  `Except.error` embeds an uncaught
`TypeError`/`KeyError` raised by the membership test, the indexing or the
iteration. -/
def is_subset : PyVal → PyVal → Except Unit Bool
  | .pdict d, superset => is_subset_dict d superset
  | .plist l, superset => is_subset_list l superset
  | subset, superset => .ok (pyEq subset superset)
termination_by a _ => ((sizeOf a : Nat), 0, 0)

/-- The dict branch of `is_subset`: iterate `subset.items()` in order,
short-circuiting on the first item whose key is missing or whose value is
not a subset. -/
def is_subset_dict : List (String × PyVal) → PyVal → Except Unit Bool
  | [], _ => .ok true
  | (k, v) :: rest, superset => do
      let mem ← pyContains superset k
      if mem then
        let w ← pyIndex superset k
        let b ← is_subset v w
        if b then is_subset_dict rest superset else pure false
      else
        pure false
termination_by d _ => ((sizeOf d : Nat), 0, 0)

/-- The list branch of `is_subset`: for each element of the subset in
order, scan a fresh iteration of the superset for a matching element. -/
def is_subset_list : List PyVal → PyVal → Except Unit Bool
  | [], _ => .ok true
  | x :: rest, superset => do
      let items ← pyIter superset
      let b ← is_subset_any x items
      if b then is_subset_list rest superset else pure false
termination_by l _ => ((sizeOf l : Nat), 0, 0)

/-- Python `any(is_subset(x, superitem) for superitem in items)`:
short-circuits on the first match, propagating a raised error. -/
def is_subset_any (x : PyVal) : List PyVal → Except Unit Bool
  | [] => .ok false
  | y :: ys => do
      let b ← is_subset x y
      if b then pure true else is_subset_any x ys
termination_by ys => ((sizeOf x : Nat), 1, ys.length)

end

/-- `v` is a Python scalar (not a dict, list or set). -/
def isScalar : PyVal → Bool
  | .pdict _ => false
  | .plist _ => false
  | _ => true

/-- Per-invocation retry policy from the common module parameters
(`retries`, default 3, and `sleep` seconds, default 5). -/
structure RetryParams where
  retries : Nat
  sleep : Nat

/-- Final outcome of `TFEHelper.call_endpoint`: the endpoint's return
value, the re-raise of the stored last exception object, or — when the
loop body never ran and `exception` is still `None` — the `TypeError`
produced by `raise None`. -/
inductive CallOutcome (E A : Type) where
  | ok : A → CallOutcome E A
  | raised : E → CallOutcome E A
  | raiseNoneError : CallOutcome E A

/-- The `raise exception` statement after the loop: re-raise the stored
exception object, or `raise None` (a `TypeError`) when none was stored. -/
def raiseStored (lastExc : Option E) (attempts sleeps : Nat) :
    CallOutcome E A × Nat × Nat :=
  match lastExc with
  | some e => (.raised e, attempts, sleeps)
  | none => (.raiseNoneError, attempts, sleeps)

/-- The `while retries <= self.module.params['retries']` loop of
`TFEHelper.call_endpoint`.  `op k` is the outcome of the `k`-th
invocation of `endpoint(**kwargs)` (0-based).  `attempts` counts
endpoint invocations made so far and `sleeps` the `time.sleep(sleep)`
calls made so far.  A successful attempt returns at once; a failed
attempt stores the exception, sleeps once and increments the counter;
after the loop the stored exception is re-raised. -/
def callLoop (op : Nat → Except E A) (maxRetries retries : Nat)
    (lastExc : Option E) (attempts sleeps : Nat) :
    CallOutcome E A × Nat × Nat :=
  if retries ≤ maxRetries then
    match op attempts with
    | .ok a => (.ok a, attempts + 1, sleeps)
    | .error e =>
        callLoop op maxRetries (retries + 1) (some e) (attempts + 1) (sleeps + 1)
  else
    raiseStored lastExc attempts sleeps
termination_by maxRetries + 1 - retries
decreasing_by omega

/-- `TFEHelper.call_endpoint`: run the retry loop starting from
`retries = 1` with no stored exception and both counters at zero.
Returns the outcome together with the number of endpoint invocations and
the number of sleeps performed (each sleep is `p.sleep` seconds long). -/
def call_endpoint (p : RetryParams) (op : Nat → Except E A) :
    CallOutcome E A × Nat × Nat :=
  callLoop op p.retries 1 none 0 0

/-- On an endpoint that fails at every attempt, the retry loop started
`d` steps from its bound performs `d + 1` further attempts and `d + 1`
further sleeps, then re-raises the exception of the last attempt. -/
theorem callLoop_allFail (op : Nat → Except E A) (e : Nat → E)
    (hop : ∀ k, op k = .error (e k)) :
    ∀ (d retries attempts sleeps : Nat) (last : Option E),
      callLoop op (retries + d) retries last attempts sleeps =
        (.raised (e (attempts + d)), attempts + d + 1, sleeps + d + 1) := by
  intro d
  induction d with
  | zero =>
      intro r a s last
      rw [callLoop.eq_def]
      simp only [Nat.add_zero, le_refl, if_true, hop a]
      rw [callLoop.eq_def]
      simp [raiseStored]
  | succ d ih =>
      intro r a s last
      rw [callLoop.eq_def]
      have hle : r ≤ r + (d + 1) := by omega
      simp only [hle, if_true, hop a]
      have h1 : r + (d + 1) = (r + 1) + d := by omega
      rw [h1, ih (r + 1) (a + 1) (s + 1) (some (e a))]
      have h2 : a + 1 + d = a + (d + 1) := by omega
      have h3 : s + 1 + d = s + (d + 1) := by omega
      rw [h2, h3]

/-- Simp set used to evaluate the embedded helpers on concrete inputs. -/
theorem except_bind_ok {α β γ : Type} (a : α) (f : α → Except γ β) :
    (Except.ok a : Except γ α) >>= f = f a := rfl

theorem except_bind_err {α β γ : Type} (e : γ) (f : α → Except γ β) :
    (Except.error e : Except γ α) >>= f = Except.error e := rfl

theorem except_pure {α γ : Type} (a : α) : (pure a : Except γ α) = Except.ok a := rfl

example : is_subset (.pdict [("x", .pint 1)]) (.pdict [("x", .pstr "1")]) = .ok false := by
  simp [is_subset, is_subset_dict, pyContains, pyIndex, dictGet, pyEq,
    except_bind_ok, except_bind_err]
example : is_subset (.pdict [("x", .pbool true)]) (.pdict [("x", .pint 1)]) = .ok true := by
  simp [is_subset, is_subset_dict, pyContains, pyIndex, dictGet, pyEq, bool2int,
    except_bind_ok, except_bind_err]
example : is_subset (.pdict [("a", .pint 1)]) (.pint 5) = .error () := by
  simp [is_subset, is_subset_dict, pyContains, except_bind_ok, except_bind_err]
example : is_subset (.plist [.pint 1]) (.pint 5) = .error () := by
  simp [is_subset, is_subset_list, pyIter, except_bind_ok, except_bind_err]

/-- Python `list.remove(y)`: drop the first occurrence of `y`. -/
def listRemoveFirst : List String → String → List String
  | [], _ => []
  | x :: xs, y => if x == y then xs else x :: listRemoveFirst xs y

/-- Python `',' in element`. -/
def hasComma (s : String) : Bool := s.toList.any (fun c => c == ',')

/-- Accumulator pass of Python `element.split(',')`. -/
def splitCommaAux : List Char → List Char → List String
  | [], acc => [String.mk acc.reverse]
  | c :: rest, acc =>
      if c == ',' then String.mk acc.reverse :: splitCommaAux rest []
      else splitCommaAux rest (c :: acc)

/-- Python `element.split(',')`: split on every comma; an empty string
yields `[""]`. -/
def splitComma (s : String) : List String := splitCommaAux s.toList []

/-- One of the whitespace characters Python `str.strip()` removes (the
ASCII ones; the inputs here are resource identifiers). -/
def isStripChar (c : Char) : Bool :=
  c == ' ' || c == '\t' || c == '\n' || c == '\r'

/-- Python `e.strip()`: drop leading and trailing whitespace. -/
def strip (s : String) : String :=
  String.mk (((s.toList.dropWhile isStripChar).reverse.dropWhile isStripChar).reverse)

/-- `TFEHelper.listify_comma_sep_strings_in_list`: collect the
comma-containing elements, split each on commas into stripped
sub-elements (`new_list`), remove every comma-containing element from the
original list (`list.remove` once per occurrence), append `new_list`, and
finally map a result equal to `[""]` to `[]`. -/
def listify_comma_sep_strings_in_list (some_list : List String) : List String :=
  let new_list :=
    (some_list.filter (fun e => hasComma e)).flatMap
      (fun e => (splitComma e).map (fun s => strip s))
  let remove_from_original_list := some_list.filter (fun e => hasComma e)
  let shrunk := remove_from_original_list.foldl listRemoveFirst some_list
  let extended := shrunk ++ new_list
  if extended == [""] then [] else extended

/-- The `run` parameter normalisation in `tfe_run_info.main`: strip every
element, normalise comma-separated elements with the helper, then replace
an empty result (Python `if not runs:`) with the wildcard list `["*"]`. -/
def runInfoParseRuns (run : List String) : List String :=
  let runs := run.map (fun p => strip p)
  let runs2 := listify_comma_sep_strings_in_list runs
  if runs2.isEmpty then ["*"] else runs2

example : listify_comma_sep_strings_in_list [""] = [] := by decide
example : listify_comma_sep_strings_in_list ["a,b", "c"] = ["c", "a", "b"] := by decide
example : runInfoParseRuns [""] = ["*"] := by decide

/-- An organization object from the list endpoint: `o['id']` (the
organization name) and `o['attributes']['external-id']`. -/
structure Org where
  id : String
  external_id : String

/-- `TFEHelper.get_org_name_when_exists`.  The outcome of
`call_endpoint(self.api.orgs.list)` is hoisted into `listOutcome`
(`Except.error` carries the message of the exception it raises after
retries).  `Except.error msg` on the result embeds the
`module.fail_json(msg=...)` abort; `Except.ok` carries the returned
organization name (Python `None` embedded as `none`).  The source
defaults `return_org_name_on_unauthorized` to `True`, and on a failed
list returns the supplied `organization` argument unchanged when that
flag is set.  Otherwise it looks for an organization whose external-id
equals `organization` and then, failing that, for one whose id equals it,
returning the id of the first hit. -/
def get_org_name_when_exists (listOutcome : Except String (List Org))
    (organization : String) (return_org_name_on_unauthorized : Bool) :
    Except String (Option String) :=
  match listOutcome with
  | .error e =>
      if return_org_name_on_unauthorized then .ok (some organization)
      else .error ("Unable to list organizations. Error: " ++ e ++ ".")
  | .ok all_organizations =>
      let byExternal : Option String :=
        if all_organizations.any (fun o => o.external_id == organization) then
          (all_organizations.filter (fun o => o.external_id == organization)).head?.map
            (fun o => o.id)
        else none
      match byExternal with
      | some n => .ok (some n)
      | none =>
          if all_organizations.any (fun o => o.id == organization) then
            .ok ((all_organizations.filter (fun o => o.id == organization)).head?.map
              (fun o => o.id))
          else .ok none

example :
    get_org_name_when_exists (.ok [⟨"foo", "org-XYZ"⟩]) "org-XYZ" true = .ok (some "foo") := by
  rfl
example :
    get_org_name_when_exists (.error "boom") "acme" true = .ok (some "acme") := by rfl

/-- The `state` parameter of a reconciliation module
(`choices=['present', 'absent']`). -/
inductive TfeState where
  | present
  | absent
deriving DecidableEq

/-- A workspace object from `workspaces.list_all`: `w['id']`,
`w['attributes']`, and the resolved ssh-key relationship
`w['relationships'].get('ssh-key', {}).get('data', {}).get('id', None)`. -/
structure Workspace where
  id : String
  attrs : List (String × PyVal)
  sshKey : Option String

/-- An SSH key object from `ssh_keys.list`: `k['id']` and
`k['attributes']['name']` (a string for real SSH keys). -/
structure SshKey where
  id : String
  name : String

/-- A mutating endpoint invocation recorded during a module run
(the payload bodies are not needed by any property proved here). -/
inductive ApiCall where
  | destroyWs : String → ApiCall
  | updateWs : String → ApiCall
  | lockWs : String → ApiCall
  | unlockWs : String → ApiCall
  | assignSshKeyWs : String → ApiCall
  | unassignSshKeyWs : String → ApiCall
  | createWs : ApiCall
  | destroyOc : String → ApiCall
  | updateOc : String → ApiCall
  | createOc : ApiCall
deriving DecidableEq

/-- How a module invocation ends: `module.exit_json` carrying the
`changed` flag, `module.fail_json` carrying its message, or an uncaught
Python exception (`TypeError` / `KeyError` / `IndexError`). -/
inductive ModuleExit where
  | exited : Bool → ModuleExit
  | failed : String → ModuleExit
  | pyError : ModuleExit
deriving DecidableEq

/-- `%s`-formatting of a value that may be Python `None`. -/
def showOpt : Option String → String
  | some s => s
  | none => "None"

/-- The mutable parts of `result` while `main` runs: the `changed` flag
and the list of mutating endpoint calls made so far. -/
structure RunSt where
  changed : Bool
  log : List ApiCall

/-- One
`if not module.check_mode: try: result['json'] = tfe.call_endpoint(...)
except: module.fail_json(...)` block followed by
`result['changed'] = True`: in check mode nothing is called; otherwise
the endpoint runs (appended to the log) and a raised error aborts with
the block's message. -/
def doMut (check_mode : Bool) (c : ApiCall) (outcome : Except String PyVal)
    (msg : String → String) (st : RunSt) :
    Except (ModuleExit × List ApiCall) RunSt :=
  if check_mode then .ok ⟨true, st.log⟩
  else
    match outcome with
    | .ok _ => .ok ⟨true, st.log ++ [c]⟩
    | .error e => .error (.failed (msg e), st.log ++ [c])

/-- End of `main`: an earlier abort is returned as is, otherwise
`module.exit_json(**result)` reports the accumulated `changed` flag. -/
def finish : Except (ModuleExit × List ApiCall) RunSt → ModuleExit × List ApiCall
  | .error r => r
  | .ok st => (.exited st.changed, st.log)

/-- Lazy `any(w['attributes']['name'] == target for w in ws)`: stops at
the first match; raises `KeyError` (`Except.error`) when a workspace
without a `name` attribute is reached before any match. -/
def anyWsNameEq : List Workspace → PyVal → Except Unit Bool
  | [], _ => .ok false
  | w :: ws, target =>
      match dictGet w.attrs "name" with
      | none => .error ()
      | some v => if pyEq v target then .ok true else anyWsNameEq ws target

/-- Strict `[w for w in ws if w['attributes']['name'] == target][0]['id']`:
the comprehension evaluates the predicate on every element (`KeyError`
when any workspace lacks `name`), then `[0]` raises `IndexError` on an
empty result. -/
def firstWsIdByName (ws : List Workspace) (target : PyVal) : Except Unit String :=
  if ws.all (fun w => (dictGet w.attrs "name").isSome) then
    match ws.filter (fun w =>
        match dictGet w.attrs "name" with
        | some v => pyEq v target
        | none => false) with
    | [] => .error ()
    | w :: _ => .ok w.id
  else .error ()

/-- Remote behaviour visible to `tfe_workspace.main`: the post-retry
outcome of every endpoint it may call (`Except.error` carries the
message of the exception that `call_endpoint` ultimately re-raises). -/
structure WsEnv where
  orgsList : Except String (List Org)
  setOrg : Except String Unit
  listWorkspaces : Except String (List Workspace)
  listSshKeys : Except String (List SshKey)
  destroyR : Except String PyVal
  updateR : Except String PyVal
  lockR : Except String PyVal
  unlockR : Except String PyVal
  assignR : Except String PyVal
  unassignR : Except String PyVal
  createR : Except String PyVal

/-- The parameters of one `tfe_workspace` invocation, plus Ansible's
check-mode (dry-run) flag. -/
structure WsParams where
  organization : String
  workspace : Option String
  state : TfeState
  locked : Option Bool
  lock_reason : Option String
  ssh_key : Option String
  attributes : Option (List (String × PyVal))
  check_mode : Bool

/-- The `required_if` validation `AnsibleModule` performs before the body
of `tfe_workspace.main` runs: `state=absent` requires `workspace`,
`state=present` requires one of `attributes`/`locked`/`ssh_key`, and
`locked=true` requires `lock_reason`. -/
def wsRequiredIfError (p : WsParams) : Option String :=
  if p.state = TfeState.absent ∧ p.workspace.isNone then
    some "state is absent but any of the following are missing: workspace"
  else if p.state = TfeState.present ∧ p.attributes.isNone ∧
      p.locked.isNone ∧ p.ssh_key.isNone then
    some "state is present but any of the following are missing: attributes, locked, ssh_key"
  else if p.locked = some true ∧ p.lock_reason.isNone then
    some "locked is True but any of the following are missing: lock_reason"
  else none

/-- Workspace-id resolution of `tfe_workspace.main`: with a `workspace`
parameter, first by `attributes.name`, then by id, and for
`state=present` a missing workspace is a fatal "does not exist" error
(for `state=absent` it leaves the id `None`); without a `workspace`
parameter, `name` is required inside `attributes` and is looked up to
detect an already existing workspace. -/
def wsResolveId (p : WsParams) (all : List Workspace) (orgDisp : String) :
    Except ModuleExit (Option String) :=
  match p.workspace with
  | some ws =>
      match anyWsNameEq all (.pstr ws) with
      | .error _ => .error .pyError
      | .ok true =>
          match firstWsIdByName all (.pstr ws) with
          | .error _ => .error .pyError
          | .ok wid => .ok (some wid)
      | .ok false =>
          if all.any (fun w => w.id == ws) then .ok (some ws)
          else if p.state = TfeState.present then
            .error (.failed ("The supplied \"" ++ ws ++ "\" workspace does not exist in \"" ++
              orgDisp ++ "\" organization."))
          else .ok none
  | none =>
      match p.attributes with
      | none => .error .pyError
      | some attrs =>
          match dictGet attrs "name" with
          | none => .error (.failed "`name` is required when creating a new workspace")
          | some nameV =>
              match anyWsNameEq all nameV with
              | .error _ => .error .pyError
              | .ok true =>
                  match firstWsIdByName all nameV with
                  | .error _ => .error .pyError
                  | .ok wid => .ok (some wid)
              | .ok false => .ok none

/-- The `attributes` block of the present-and-exists path: compare the
requested attributes with the current ones via `is_subset` and update
only on a difference. -/
def wsAttrBlock (env : WsEnv) (p : WsParams) (all : List Workspace)
    (wid : String) (orgDisp wsDisp : String) (st : RunSt) :
    Except (ModuleExit × List ApiCall) RunSt :=
  match p.attributes with
  | none => .ok st
  | some attrs =>
      match all.find? (fun w => w.id == wid) with
      | none => .error (.pyError, st.log)
      | some w =>
          match is_subset (.pdict attrs) (.pdict w.attrs) with
          | .error _ => .error (.pyError, st.log)
          | .ok true => .ok st
          | .ok false =>
              doMut p.check_mode (.updateWs wid) env.updateR
                (fun e => "Unable to update \"" ++ wsDisp ++ "\" workspace in \"" ++
                  orgDisp ++ "\" organization. Error: " ++ e ++ ".") st

/-- The `locked` block: lock when `locked=true` and the workspace is not
currently locked (Python truthiness of `attributes['locked']`), unlock
when `locked=false` and it is. -/
def wsLockBlock (env : WsEnv) (p : WsParams) (all : List Workspace)
    (wid : String) (orgDisp wsDisp : String) (st : RunSt) :
    Except (ModuleExit × List ApiCall) RunSt :=
  match p.locked with
  | none => .ok st
  | some lb =>
      match all.find? (fun w => w.id == wid) with
      | none => .error (.pyError, st.log)
      | some w =>
          match dictGet w.attrs "locked" with
          | none => .error (.pyError, st.log)
          | some cur =>
              if lb && !(pyTruthy cur) then
                doMut p.check_mode (.lockWs wid) env.lockR
                  (fun e => "Unable to lock \"" ++ wsDisp ++ "\" workspace in \"" ++
                    orgDisp ++ "\" organization. Error: " ++ e ++ ".") st
              else if !lb && pyTruthy cur then
                doMut p.check_mode (.unlockWs wid) env.unlockR
                  (fun e => "Unable to unlock \"" ++ wsDisp ++ "\" workspace in \"" ++
                    orgDisp ++ "\" organization. Error: " ++ e ++ ".") st
              else .ok st

/-- The `ssh_key` block: list SSH keys, resolve the parameter by name
then id (an empty string means unassign), and assign or unassign when the
workspace's current ssh-key relationship differs. -/
def wsSshBlock (env : WsEnv) (p : WsParams) (all : List Workspace)
    (wid : String) (orgDisp wsDisp : String) (st : RunSt) :
    Except (ModuleExit × List ApiCall) RunSt :=
  match p.ssh_key with
  | none => .ok st
  | some sk =>
      match env.listSshKeys with
      | .error e =>
          .error (.failed ("Unable to list SSH keys in \"" ++ orgDisp ++
            "\" organization. Error: " ++ e ++ "."), st.log)
      | .ok keys =>
          let resolved : Except (ModuleExit × List ApiCall) (Option String) :=
            if sk == "" then .ok none
            else if keys.any (fun k => k.name == sk) then
              match keys.find? (fun k => k.name == sk) with
              | some k => .ok (some k.id)
              | none => .error (.pyError, st.log)
            else if keys.any (fun k => k.id == sk) then .ok (some sk)
            else
              .error (.failed ("The supplied \"" ++ sk ++ "\" SSH key does not exist in \"" ++
                orgDisp ++ "\" organization."), st.log)
          match resolved with
          | .error r => .error r
          | .ok ssh_key_id =>
              match all.find? (fun w => w.id == wid) with
              | none => .error (.pyError, st.log)
              | some w =>
                  match ssh_key_id with
                  | some kid =>
                      if w.sshKey ≠ some kid then
                        doMut p.check_mode (.assignSshKeyWs wid) env.assignR
                          (fun e => "Unable to assign \"" ++ sk ++ "\" SSH key to \"" ++
                            wsDisp ++ "\" workspace. Error: " ++ e ++ ".") st
                      else .ok st
                  | none =>
                      if w.sshKey.isSome then
                        doMut p.check_mode (.unassignSshKeyWs wid) env.unassignR
                          (fun e => "Unable to unassign \"" ++ sk ++ "\" SSH key from \"" ++
                            wsDisp ++ "\" workspace. Error: " ++ e ++ ".") st
                      else .ok st

/-- The present-and-exists path of `tfe_workspace.main`: the
`attributes`, `locked` and `ssh_key` blocks run in source order, each
able to abort the module. -/
def wsPresentBlocks (env : WsEnv) (p : WsParams) (all : List Workspace)
    (wid orgDisp wsDisp : String) (st0 : RunSt) :
    Except (ModuleExit × List ApiCall) RunSt := do
  let st1 ← wsAttrBlock env p all wid orgDisp wsDisp st0
  let st2 ← wsLockBlock env p all wid orgDisp wsDisp st1
  wsSshBlock env p all wid orgDisp wsDisp st2

/-- `tfe_workspace.main` after argument validation: resolve the
organization, set it, list all workspaces, resolve the workspace id, then
destroy (absent + exists), run the attributes/locked/ssh-key blocks
(present + exists) or create (present + missing), and exit with the
accumulated `changed` flag. -/
def tfe_workspace_main (env : WsEnv) (p : WsParams) : ModuleExit × List ApiCall :=
  match wsRequiredIfError p with
  | some m => (.failed m, [])
  | none =>
  match get_org_name_when_exists env.orgsList p.organization true with
  | .error m => (.failed m, [])
  | .ok organization =>
  let orgDisp := showOpt organization
  match env.setOrg with
  | .error e =>
      (.failed ("Unable to set \"" ++ orgDisp ++
        "\" organization to use for org specific endpoints: " ++ e), [])
  | .ok _ =>
  match env.listWorkspaces with
  | .error e =>
      (.failed ("Unable to list workspaces in \"" ++ orgDisp ++
        "\" organization. Error: " ++ e ++ "."), [])
  | .ok all =>
  match wsResolveId p all orgDisp with
  | .error x => (x, [])
  | .ok workspace_id =>
  let wsDisp := showOpt p.workspace
  let st0 : RunSt := ⟨false, []⟩
  match p.state, workspace_id with
  | .absent, some wid =>
      finish (doMut p.check_mode (.destroyWs wid) env.destroyR
        (fun e => "Unable to destroy \"" ++ wsDisp ++ "\" workspace in \"" ++
          orgDisp ++ "\" organization. Error: " ++ e ++ ".") st0)
  | .absent, none => (.exited st0.changed, st0.log)
  | .present, some wid =>
      finish (wsPresentBlocks env p all wid orgDisp wsDisp st0)
  | .present, none =>
      match p.attributes with
      | none => (.pyError, [])
      | some attrs =>
          if (dictGet attrs "name").isNone then
            (.failed "`name` is required when creating a new workspace", [])
          else
            finish (doMut p.check_mode .createWs env.createR
              (fun e => "Unable to create \"" ++ wsDisp ++ "\" workspace in \"" ++
                orgDisp ++ "\" organization. Error: " ++ e ++ ".") st0)

/-- An OAuth client object from `oauth_clients.list`: `oc['id']` and
`oc['attributes']`. -/
structure OClient where
  id : String
  attrs : List (String × PyVal)

/-- Remote behaviour visible to `tfe_vcs_connection.main`: the post-retry
outcome of every endpoint it may call. -/
structure VcsEnv where
  orgsList : Except String (List Org)
  setOrg : Except String Unit
  listClients : Except String (List OClient)
  destroyR : Except String PyVal
  updateR : Except String PyVal
  showR : Except String PyVal
  createR : Except String PyVal

/-- The parameters of one `tfe_vcs_connection` invocation, plus Ansible's
check-mode (dry-run) flag. -/
structure VcsParams where
  organization : String
  state : TfeState
  client : Option String
  attributes : Option (List (String × PyVal))
  check_mode : Bool

/-- The `required_if` validation `AnsibleModule` performs before the body
of `tfe_vcs_connection.main` runs: `state=absent` requires `client`,
`state=present` requires `attributes`. -/
def vcsRequiredIfError (p : VcsParams) : Option String :=
  if p.state = TfeState.absent ∧ p.client.isNone then
    some "state is absent but any of the following are missing: client"
  else if p.state = TfeState.present ∧ p.attributes.isNone then
    some "state is present but any of the following are missing: attributes"
  else none

/-- Strict `len([oc for oc in clients if oc['attributes']['name'] == target])`
(`KeyError` when any client lacks a `name` attribute). -/
def ocNameMatchCount (clients : List OClient) (target : PyVal) : Except Unit Nat :=
  if clients.all (fun oc => (dictGet oc.attrs "name").isSome) then
    .ok (clients.countP (fun oc =>
      match dictGet oc.attrs "name" with
      | some v => pyEq v target
      | none => false))
  else .error ()

/-- Strict `[oc for oc in clients if oc['attributes']['name'] == target][0]['id']`. -/
def firstOcIdByName (clients : List OClient) (target : PyVal) : Except Unit String :=
  if clients.all (fun oc => (dictGet oc.attrs "name").isSome) then
    match clients.filter (fun oc =>
        match dictGet oc.attrs "name" with
        | some v => pyEq v target
        | none => false) with
    | [] => .error ()
    | oc :: _ => .ok oc.id
  else .error ()

/-- Lazy `any(oc['attributes']['name'] == target for oc in clients)`. -/
def anyOcNameEq : List OClient → PyVal → Except Unit Bool
  | [], _ => .ok false
  | oc :: rest, target =>
      match dictGet oc.attrs "name" with
      | none => .error ()
      | some v => if pyEq v target then .ok true else anyOcNameEq rest target

/-- OAuth-client-id resolution of `tfe_vcs_connection.main`: with a
`client` parameter, first by id; failing that, count the clients sharing
that name — two or more is a fatal "multiple matches" error, exactly one
resolves to its id; a still-unresolved client with `state=present` is a
fatal "does not exist" error.  Without a `client` parameter, `name` is
required inside `attributes` and is looked up to detect an already
existing client. -/
def vcsResolveId (p : VcsParams) (clients : List OClient) (orgDisp : String) :
    Except ModuleExit (Option String) :=
  match p.client with
  | some c =>
      let step : Except ModuleExit (Option String) :=
        if clients.any (fun oc => oc.id == c) then
          match clients.find? (fun oc => oc.id == c) with
          | some oc => .ok (some oc.id)
          | none => .error .pyError
        else
          match ocNameMatchCount clients (.pstr c) with
          | .error _ => .error .pyError
          | .ok n =>
              if n > 1 then
                .error (.failed ("Found multiple OAuth Clients with \"" ++ c ++
                  "\" name in \"" ++ orgDisp ++ "\" organization. Refer to OAuth Client by its ID."))
              else if n == 1 then
                match firstOcIdByName clients (.pstr c) with
                | .error _ => .error .pyError
                | .ok cid => .ok (some cid)
              else .ok none
      match step with
      | .error x => .error x
      | .ok cid =>
          if cid.isNone ∧ p.state = TfeState.present then
            .error (.failed ("The supplied \"" ++ c ++ "\" OAuth Client does not exist in \"" ++
              orgDisp ++ "\" organization."))
          else .ok cid
  | none =>
      match p.attributes with
      | none => .error .pyError
      | some attrs =>
          match dictGet attrs "name" with
          | none => .error (.failed "`name` is required when creating a new OAuth Client")
          | some nameV =>
              match anyOcNameEq clients nameV with
              | .error _ => .error .pyError
              | .ok true =>
                  match firstOcIdByName clients nameV with
                  | .error _ => .error .pyError
                  | .ok cid => .ok (some cid)
              | .ok false => .ok none

/-- The Python value `is_subset` receives as its `subset` argument:
the `attributes` dict, or `None` when the parameter is missing. -/
def pyOfAttrs : Option (List (String × PyVal)) → PyVal
  | some a => .pdict a
  | none => .pnone

/-- The present-and-exists path of `tfe_vcs_connection.main`: compare the
requested attributes with the current ones via `is_subset`, update only
on a difference, then make the unguarded, uncaught `show` call. -/
def vcsPresentExisting (env : VcsEnv) (p : VcsParams) (clients : List OClient)
    (cid orgDisp cDisp : String) (st0 : RunSt) : ModuleExit × List ApiCall :=
  match clients.find? (fun oc => oc.id == cid) with
  | none => (.pyError, st0.log)
  | some oc =>
      match is_subset (pyOfAttrs p.attributes) (.pdict oc.attrs) with
      | .error _ => (.pyError, st0.log)
      | .ok isSub =>
          let afterUpdate : Except (ModuleExit × List ApiCall) RunSt :=
            if isSub then .ok st0
            else
              doMut p.check_mode (.updateOc cid) env.updateR
                (fun e => "Unable to update \"" ++ cDisp ++ "\" OAuth Client in \"" ++
                  orgDisp ++ "\" organization. Error: " ++ e ++ ".") st0
          match afterUpdate with
          | .error r => r
          | .ok st =>
              match env.showR with
              | .error _ => (.pyError, st.log)
              | .ok _ => (.exited st.changed, st.log)

/-- `tfe_vcs_connection.main` after argument validation: resolve the
organization, set it, list the OAuth clients, resolve the client id,
then remove (absent + exists), update-if-different followed by an
unguarded `show` call (present + exists), or create (present + missing),
and exit with the accumulated `changed` flag. -/
def tfe_vcs_connection_main (env : VcsEnv) (p : VcsParams) : ModuleExit × List ApiCall :=
  match vcsRequiredIfError p with
  | some m => (.failed m, [])
  | none =>
  match get_org_name_when_exists env.orgsList p.organization true with
  | .error m => (.failed m, [])
  | .ok organization =>
  let orgDisp := showOpt organization
  match env.setOrg with
  | .error e =>
      (.failed ("Unable to set \"" ++ orgDisp ++
        "\" organization to use for org specific endpoints: " ++ e), [])
  | .ok _ =>
  match env.listClients with
  | .error e =>
      (.failed ("Unable to list OAuth Clients in \"" ++ orgDisp ++
        "\" organization. Error: " ++ e ++ "."), [])
  | .ok clients =>
  match vcsResolveId p clients orgDisp with
  | .error x => (x, [])
  | .ok client_id =>
  let cDisp := showOpt p.client
  let st0 : RunSt := ⟨false, []⟩
  match p.state, client_id with
  | .absent, some cid =>
      finish (doMut p.check_mode (.destroyOc cid) env.destroyR
        (fun e => "Unable to remove \"" ++ cDisp ++ "\" OAuth Client in \"" ++
          orgDisp ++ "\" organization. Error: " ++ e ++ ".") st0)
  | .absent, none => (.exited st0.changed, st0.log)
  | .present, some cid =>
      vcsPresentExisting env p clients cid orgDisp cDisp st0
  | .present, none =>
      finish (doMut p.check_mode .createOc env.createR
        (fun e => "Unable to create OAuth Client in \"" ++ orgDisp ++
          "\" organization. Error: " ++ e ++ ".") st0)

/-- The call log an `Except`-style block result carries, whether it
aborted or continued. -/
def outLog : Except (ModuleExit × List ApiCall) RunSt → List ApiCall
  | .error (_, l) => l
  | .ok st => st.log

/-- The calls that are a create, an update or a destroy (as opposed to
the lock/unlock and ssh-key assignment actions). -/
def isCUD : ApiCall → Bool
  | .destroyWs _ => true
  | .updateWs _ => true
  | .createWs => true
  | .destroyOc _ => true
  | .updateOc _ => true
  | .createOc => true
  | _ => false

theorem finish_snd (r : Except (ModuleExit × List ApiCall) RunSt) :
    (finish r).2 = outLog r := by
  cases r with
  | error x => cases x; rfl
  | ok st => rfl

/-- A mutation block appends at most its own call to the log, and appends
nothing at all in check mode. -/
theorem doMut_ext (cm : Bool) (c : ApiCall) (out : Except String PyVal)
    (msg : String → String) (st : RunSt) :
    ∃ suf, outLog (doMut cm c out msg st) = st.log ++ suf ∧
      (suf = [] ∨ suf = [c]) ∧ (cm = true → suf = []) := by
  unfold doMut
  by_cases hcm : cm = true
  · exact ⟨[], by simp [hcm, outLog], Or.inl rfl, fun _ => rfl⟩
  · have hcm' : cm = false := by revert hcm; cases cm <;> simp
    cases out with
    | ok v => exact ⟨[c], by simp [hcm', outLog], Or.inr rfl, by simp [hcm']⟩
    | error e => exact ⟨[c], by simp [hcm', outLog], Or.inr rfl, by simp [hcm']⟩

theorem wsAttrBlock_ext (env : WsEnv) (p : WsParams) (all : List Workspace)
    (wid orgDisp wsDisp : String) (st : RunSt) :
    ∃ suf, outLog (wsAttrBlock env p all wid orgDisp wsDisp st) = st.log ++ suf ∧
      List.countP isCUD suf ≤ 1 ∧ (p.check_mode = true → suf = []) := by
  unfold wsAttrBlock
  split
  · exact ⟨[], by simp [outLog], by simp, fun _ => rfl⟩
  · split
    · exact ⟨[], by simp [outLog], by simp, fun _ => rfl⟩
    · split
      · exact ⟨[], by simp [outLog], by simp, fun _ => rfl⟩
      · exact ⟨[], by simp [outLog], by simp, fun _ => rfl⟩
      · obtain ⟨suf, h1, h2, h3⟩ := doMut_ext p.check_mode _ env.updateR _ st
        refine ⟨suf, h1, ?_, h3⟩
        rcases h2 with h | h <;> simp [h, isCUD, List.countP_cons]

theorem wsLockBlock_ext (env : WsEnv) (p : WsParams) (all : List Workspace)
    (wid orgDisp wsDisp : String) (st : RunSt) :
    ∃ suf, outLog (wsLockBlock env p all wid orgDisp wsDisp st) = st.log ++ suf ∧
      List.countP isCUD suf = 0 ∧ (p.check_mode = true → suf = []) := by
  unfold wsLockBlock
  split
  · exact ⟨[], by simp [outLog], by simp, fun _ => rfl⟩
  · split
    · exact ⟨[], by simp [outLog], by simp, fun _ => rfl⟩
    · split
      · exact ⟨[], by simp [outLog], by simp, fun _ => rfl⟩
      · split
        · obtain ⟨suf, h1, h2, h3⟩ := doMut_ext p.check_mode _ env.lockR _ st
          refine ⟨suf, h1, ?_, h3⟩
          rcases h2 with h | h <;> simp [h, isCUD, List.countP_cons]
        · split
          · obtain ⟨suf, h1, h2, h3⟩ := doMut_ext p.check_mode _ env.unlockR _ st
            refine ⟨suf, h1, ?_, h3⟩
            rcases h2 with h | h <;> simp [h, isCUD, List.countP_cons]
          · exact ⟨[], by simp [outLog], by simp, fun _ => rfl⟩

/-- A mutation block whose call is not a create/update/destroy adds
nothing to the create/update/destroy count. -/
theorem doMut_ext_nonCUD (cm : Bool) (c : ApiCall) (out : Except String PyVal)
    (msg : String → String) (st : RunSt) (hc : isCUD c = false) :
    ∃ suf, outLog (doMut cm c out msg st) = st.log ++ suf ∧
      List.countP isCUD suf = 0 ∧ (cm = true → suf = []) := by
  obtain ⟨suf, h1, h2, h3⟩ := doMut_ext cm c out msg st
  refine ⟨suf, h1, ?_, h3⟩
  rcases h2 with h | h <;> simp [h, List.countP_cons, hc]

theorem wsSshBlock_ext (env : WsEnv) (p : WsParams) (all : List Workspace)
    (wid orgDisp wsDisp : String) (st : RunSt) :
    ∃ suf, outLog (wsSshBlock env p all wid orgDisp wsDisp st) = st.log ++ suf ∧
      List.countP isCUD suf = 0 ∧ (p.check_mode = true → suf = []) := by
  unfold wsSshBlock
  dsimp only
  repeat' split
  all_goals try exact doMut_ext_nonCUD _ _ _ _ _ rfl
  all_goals refine ⟨[], ?_, by simp, fun _ => rfl⟩
  all_goals simp only [outLog, List.append_nil]
  all_goals rename_i r heq
  all_goals repeat' split at heq
  all_goals first
    | exact Except.noConfusion heq
    | (injection heq with heq2; rw [← heq2])

theorem wsPresentBlocks_ext (env : WsEnv) (p : WsParams) (all : List Workspace)
    (wid orgDisp wsDisp : String) (st0 : RunSt) :
    ∃ suf, outLog (wsPresentBlocks env p all wid orgDisp wsDisp st0) = st0.log ++ suf ∧
      List.countP isCUD suf ≤ 1 ∧ (p.check_mode = true → suf = []) := by
  unfold wsPresentBlocks
  obtain ⟨sufA, ha1, ha2, ha3⟩ := wsAttrBlock_ext env p all wid orgDisp wsDisp st0
  cases hA : wsAttrBlock env p all wid orgDisp wsDisp st0 with
  | error r =>
      rw [hA] at ha1
      simp only [outLog] at ha1
      refine ⟨sufA, ?_, ha2, ha3⟩
      simp only [hA, except_bind_err, outLog, ha1]
  | ok st1 =>
      rw [hA] at ha1
      simp only [outLog] at ha1
      obtain ⟨sufB, hb1, hb2, hb3⟩ := wsLockBlock_ext env p all wid orgDisp wsDisp st1
      cases hB : wsLockBlock env p all wid orgDisp wsDisp st1 with
      | error r =>
          rw [hB] at hb1
          simp only [outLog] at hb1
          refine ⟨sufA ++ sufB, ?_, ?_, ?_⟩
          · simp only [hA, hB, except_bind_ok, except_bind_err, outLog]
            rw [hb1, ha1, List.append_assoc]
          · simp only [List.countP_append]
            omega
          · intro hc
            rw [ha3 hc, hb3 hc]
            rfl
      | ok st2 =>
          rw [hB] at hb1
          simp only [outLog] at hb1
          obtain ⟨sufC, hc1, hc2, hc3⟩ := wsSshBlock_ext env p all wid orgDisp wsDisp st2
          refine ⟨sufA ++ sufB ++ sufC, ?_, ?_, ?_⟩
          · simp only [hA, hB, except_bind_ok]
            rw [hc1, hb1, ha1]
            simp [List.append_assoc]
          · simp only [List.countP_append]
            omega
          · intro hc
            rw [ha3 hc, hb3 hc, hc3 hc]
            rfl

theorem finish_doMut_ext (cm : Bool) (c : ApiCall) (out : Except String PyVal)
    (msg : String → String) :
    List.countP isCUD (finish (doMut cm c out msg ⟨false, []⟩)).2 ≤ 1 ∧
      (cm = true → (finish (doMut cm c out msg ⟨false, []⟩)).2 = []) := by
  obtain ⟨suf, h1, h2, h3⟩ := doMut_ext cm c out msg ⟨false, []⟩
  rw [finish_snd]
  constructor
  · rcases h2 with h | h
    · simp [h1, h]
    · rw [h1, h]
      cases hC : isCUD c <;> simp [List.countP_cons, hC]
  · intro hc
    rw [h1, h3 hc]
    rfl

theorem finish_wsPresentBlocks_ext (env : WsEnv) (p : WsParams)
    (all : List Workspace) (wid orgDisp wsDisp : String) :
    List.countP isCUD (finish (wsPresentBlocks env p all wid orgDisp wsDisp ⟨false, []⟩)).2 ≤ 1 ∧
      (p.check_mode = true →
        (finish (wsPresentBlocks env p all wid orgDisp wsDisp ⟨false, []⟩)).2 = []) := by
  obtain ⟨suf, h1, h2, h3⟩ := wsPresentBlocks_ext env p all wid orgDisp wsDisp ⟨false, []⟩
  rw [finish_snd]
  constructor
  · rw [h1]
    simpa using h2
  · intro hc
    rw [h1, h3 hc]
    rfl

/-- Across every input, `tfe_workspace.main` makes at most one
create/update/destroy call, and in check mode makes no mutating call at
all. -/
theorem tfe_workspace_main_ext (env : WsEnv) (p : WsParams) :
    List.countP isCUD (tfe_workspace_main env p).2 ≤ 1 ∧
      (p.check_mode = true → (tfe_workspace_main env p).2 = []) := by
  unfold tfe_workspace_main
  dsimp only
  repeat' split
  all_goals first
    | exact finish_doMut_ext _ _ _ _
    | exact finish_wsPresentBlocks_ext _ _ _ _ _ _
    | exact ⟨by simp, fun _ => rfl⟩

theorem vcsPresentExisting_ext (env : VcsEnv) (p : VcsParams)
    (clients : List OClient) (cid orgDisp cDisp : String) :
    List.countP isCUD (vcsPresentExisting env p clients cid orgDisp cDisp ⟨false, []⟩).2 ≤ 1 ∧
      (p.check_mode = true →
        (vcsPresentExisting env p clients cid orgDisp cDisp ⟨false, []⟩).2 = []) := by
  unfold vcsPresentExisting
  cases hf : clients.find? (fun oc => oc.id == cid) with
  | none => exact ⟨by simp, fun _ => rfl⟩
  | some oc =>
      simp only
      cases hs : is_subset (pyOfAttrs p.attributes) (.pdict oc.attrs) with
      | error u => exact ⟨by simp, fun _ => rfl⟩
      | ok isSub =>
          simp only
          cases isSub with
          | true =>
              simp only [if_true]
              cases hshow : env.showR with
              | error e => exact ⟨by simp, fun _ => rfl⟩
              | ok v => exact ⟨by simp, fun _ => rfl⟩
          | false =>
              simp only [Bool.false_eq_true, if_false]
              obtain ⟨suf, h1, h2, h3⟩ :=
                doMut_ext p.check_mode (.updateOc cid) env.updateR
                  (fun e => "Unable to update \"" ++ cDisp ++ "\" OAuth Client in \"" ++
                    orgDisp ++ "\" organization. Error: " ++ e ++ ".") ⟨false, []⟩
              cases hD : doMut p.check_mode (.updateOc cid) env.updateR
                  (fun e => "Unable to update \"" ++ cDisp ++ "\" OAuth Client in \"" ++
                    orgDisp ++ "\" organization. Error: " ++ e ++ ".") ⟨false, []⟩ with
              | error r =>
                  obtain ⟨m, l⟩ := r
                  rw [hD] at h1
                  simp only [outLog, List.nil_append] at h1
                  subst h1
                  refine ⟨?_, ?_⟩
                  · rcases h2 with h | h <;> simp [h, List.countP_cons, isCUD]
                  · intro hc
                    simp [h3 hc]
              | ok st =>
                  rw [hD] at h1
                  simp only [outLog, List.nil_append] at h1
                  cases hshow : env.showR with
                  | error e =>
                      dsimp only
                      refine ⟨?_, ?_⟩
                      · rw [h1]
                        rcases h2 with h | h <;> simp [h, List.countP_cons, isCUD]
                      · intro hc
                        simp [h1, h3 hc]
                  | ok v =>
                      dsimp only
                      refine ⟨?_, ?_⟩
                      · rw [h1]
                        rcases h2 with h | h <;> simp [h, List.countP_cons, isCUD]
                      · intro hc
                        simp [h1, h3 hc]

/-- Across every input, `tfe_vcs_connection.main` makes at most one
create/update/destroy call, and in check mode makes no mutating call. -/
theorem tfe_vcs_connection_main_ext (env : VcsEnv) (p : VcsParams) :
    List.countP isCUD (tfe_vcs_connection_main env p).2 ≤ 1 ∧
      (p.check_mode = true → (tfe_vcs_connection_main env p).2 = []) := by
  unfold tfe_vcs_connection_main
  dsimp only
  repeat' split
  all_goals first
    | exact finish_doMut_ext _ _ _ _
    | exact vcsPresentExisting_ext _ _ _ _ _ _
    | exact ⟨by simp, fun _ => rfl⟩

/-- C5: with an operation that raises on every attempt, `call_endpoint`
with `retries = n` (for any `n ≥ 1`) invokes the operation exactly `n`
times and then re-raises the exception object of the last attempt
unchanged (outcome `CallOutcome.raised` carries that very exception, not
a wrapper). -/
theorem claim5_retry_exhaustion {E A : Type} (p : RetryParams)
    (op : Nat → Except E A) (e : Nat → E)
    (hop : ∀ k, op k = .error (e k)) (hr : 1 ≤ p.retries) :
    (call_endpoint p op).1 = .raised (e (p.retries - 1)) ∧
      (call_endpoint p op).2.1 = p.retries := by
  have h := callLoop_allFail op e hop (p.retries - 1) 1 0 0 none
  have h1 : 1 + (p.retries - 1) = p.retries := by omega
  rw [h1] at h
  unfold call_endpoint
  rw [h]
  refine ⟨by simp, ?_⟩
  simp
  omega

/-- Witness for C5 at `retries = 3` and a constantly failing endpoint. -/
theorem claim5_retry_exhaustion_witness :
    (call_endpoint ⟨3, 5⟩ (fun _ => (Except.error "boom" : Except String PyVal))).1 =
        .raised "boom" ∧
      (call_endpoint ⟨3, 5⟩ (fun _ => (Except.error "boom" : Except String PyVal))).2.1 = 3 :=
  claim5_retry_exhaustion ⟨3, 5⟩ _ (fun _ => "boom") (fun _ => rfl) (by decide)

/-- C4 counterexample: with `retries = 3` and an operation failing on
every attempt, `call_endpoint` performs three sleeps, not the claimed
`retries - 1 = 2`: the source sleeps inside the `except` branch after
every failed attempt, the final one included. -/
theorem claim4_sleep_counterexample :
    (call_endpoint ⟨3, 5⟩ (fun _ => (Except.error "boom" : Except String PyVal))).2.2 = 3 ∧
      (call_endpoint ⟨3, 5⟩ (fun _ => (Except.error "boom" : Except String PyVal))).2.2 ≠ 2 := by
  have h := callLoop_allFail (fun _ => (Except.error "boom" : Except String PyVal))
    (fun _ => "boom") (fun _ => rfl) 2 1 0 0 none
  have hres :
      call_endpoint ⟨3, 5⟩ (fun _ => (Except.error "boom" : Except String PyVal)) =
        (.raised "boom", 3, 3) := by
    unfold call_endpoint
    simpa using h
  rw [hres]
  exact ⟨rfl, by decide⟩

/-- C4 as amended: on an operation failing on every attempt,
`call_endpoint` with `retries = n ≥ 1` performs exactly `n` sleeps of
`sleep` seconds (one after every failed attempt, the last included), so
the worst-case introduced delay is `retries * sleep`, not
`(retries - 1) * sleep`. -/
theorem claim4_sleep_count {E A : Type} (p : RetryParams)
    (op : Nat → Except E A) (e : Nat → E)
    (hop : ∀ k, op k = .error (e k)) (hr : 1 ≤ p.retries) :
    (call_endpoint p op).2.2 = p.retries := by
  have h := callLoop_allFail op e hop (p.retries - 1) 1 0 0 none
  have h1 : 1 + (p.retries - 1) = p.retries := by omega
  rw [h1] at h
  unfold call_endpoint
  rw [h]
  simp
  omega

/-- Witness for the amended C4 at `retries = 3`. -/
theorem claim4_sleep_count_witness :
    (call_endpoint ⟨3, 5⟩ (fun _ => (Except.error "boom" : Except String PyVal))).2.2 = 3 :=
  claim4_sleep_count ⟨3, 5⟩ _ (fun _ => "boom") (fun _ => rfl) (by decide)

/-- C8: the list normalizer maps `[""]` to `[]` and never itself
produces the wildcard default: whenever normalisation of the stripped
`run` parameter comes out empty, it is `tfe_run_info.main` that
substitutes `["*"]` afterwards. -/
theorem claim8_empty_to_wildcard :
    listify_comma_sep_strings_in_list [""] = [] ∧
      (∀ l, listify_comma_sep_strings_in_list (l.map (fun s => strip s)) = [] →
        runInfoParseRuns l = ["*"]) := by
  refine ⟨by decide, ?_⟩
  intro l h
  unfold runInfoParseRuns
  dsimp only
  rw [h]
  rfl

/-- Witness for C8 at the input `[""]`. -/
theorem claim8_empty_to_wildcard_witness :
    listify_comma_sep_strings_in_list ([""].map (fun s => strip s)) = [] ∧
      runInfoParseRuns [""] = ["*"] :=
  ⟨by decide, claim8_empty_to_wildcard.2 [""] (by decide)⟩

/-- C9: when listing organizations fails (the list endpoint raises even
after retries), `get_org_name_when_exists` with its source default
`return_org_name_on_unauthorized=True` returns the caller-supplied
organization token unchanged — it neither aborts nor reports not-found. -/
theorem claim9_unauthorized_passthrough (e organization : String) :
    get_org_name_when_exists (.error e) organization true = .ok (some organization) := rfl

/-- C1 counterexample: `state=absent` with a workspace identifier
(`"w1"`) matching nothing in the fetched collection does NOT abort with a
"does not exist" error — the invocation exits successfully with
`changed=false` and an empty call log. -/
theorem claim1_absent_missing_counterexample :
    tfe_workspace_main
      ⟨.ok [⟨"org1", "ext1"⟩], .ok (), .ok [], .ok [], .ok .pnone, .ok .pnone, .ok .pnone,
        .ok .pnone, .ok .pnone, .ok .pnone, .ok .pnone⟩
      ⟨"org1", some "w1", .absent, none, none, none, none, false⟩ =
      (.exited false, []) := rfl

/-- C1 as amended: when `state=absent` is requested with a workspace
identifier matching no workspace (neither by name nor by id), the module
performs no mutating call and exits successfully with `changed=false`;
the "does not exist" Fatal error is raised only for `state=present`
(`if state == 'present':` before the `fail_json` at the resolution
step). -/
theorem claim1_absent_missing_no_mutation (env : WsEnv) (p : WsParams)
    (ws : String) (all : List Workspace)
    (hval : wsRequiredIfError p = none)
    (hstate : p.state = TfeState.absent)
    (hws : p.workspace = some ws)
    (horg : ∃ o, get_org_name_when_exists env.orgsList p.organization true = .ok o)
    (hset : env.setOrg = .ok ())
    (hlist : env.listWorkspaces = .ok all)
    (hname : anyWsNameEq all (.pstr ws) = .ok false)
    (hid : all.any (fun w => w.id == ws) = false) :
    tfe_workspace_main env p = (.exited false, []) := by
  obtain ⟨o, ho⟩ := horg
  have hres : wsResolveId p all (showOpt o) = .ok none := by
    unfold wsResolveId
    rw [hws]
    dsimp only
    rw [hname]
    simp [hid, hstate]
  unfold tfe_workspace_main
  rw [hval, ho, hset, hlist]
  dsimp only
  rw [hres, hstate]

/-- Witness for the amended C1 at a concrete environment with an empty
workspace collection. -/
theorem claim1_absent_missing_witness :
    tfe_workspace_main
      ⟨.ok [⟨"orgA", "extA"⟩], .ok (), .ok [⟨"ws-9", [("name", .pstr "other")], none⟩],
        .ok [], .ok .pnone, .ok .pnone, .ok .pnone, .ok .pnone, .ok .pnone, .ok .pnone,
        .ok .pnone⟩
      ⟨"orgA", some "w1", .absent, none, none, none, none, false⟩ =
      (.exited false, []) :=
  claim1_absent_missing_no_mutation _ _ "w1" [⟨"ws-9", [("name", .pstr "other")], none⟩]
    rfl rfl rfl ⟨some "orgA", rfl⟩ rfl rfl
    (by simp [anyWsNameEq, dictGet, pyEq]) (by decide)

/-- C2 counterexample: a single `tfe_workspace` invocation with
`state=present`, changed attributes and `locked=true` on a currently
unlocked workspace performs TWO mutating remote calls — an update
followed by a lock — in the same invocation. -/
theorem claim2_single_mutation_counterexample :
    tfe_workspace_main
      ⟨.ok [⟨"org1", "ext1"⟩], .ok (),
        .ok [⟨"ws-1", [("name", .pstr "w1"), ("locked", .pbool false), ("x", .pint 1)], none⟩],
        .ok [], .ok .pnone, .ok .pnone, .ok .pnone, .ok .pnone, .ok .pnone, .ok .pnone,
        .ok .pnone⟩
      ⟨"org1", some "w1", .present, some true, some "maintenance", none,
        some [("x", .pint 2)], false⟩ =
      (.exited true, [.updateWs "ws-1", .lockWs "ws-1"]) := by
  have hsub : is_subset (.pdict [("x", .pint 2)])
      (.pdict [("name", .pstr "w1"), ("locked", .pbool false), ("x", .pint 1)]) = .ok false := by
    simp [is_subset, is_subset_dict, pyContains, pyIndex, dictGet, pyEq,
      except_bind_ok, except_bind_err]
  simp [tfe_workspace_main, wsRequiredIfError, get_org_name_when_exists,
    showOpt, wsResolveId, anyWsNameEq, firstWsIdByName, dictGet, pyEq,
    wsPresentBlocks, wsAttrBlock, wsLockBlock, wsSshBlock, doMut, finish, hsub, pyTruthy,
    except_bind_ok, except_bind_err]

/-- C2 as amended: each invocation of the modelled reconciliation
modules performs at most one of create, update or delete, but additional
mutating calls (workspace lock/unlock and ssh-key assignment) can occur
in the same invocation, so the total number of mutating calls can exceed
one. -/
theorem claim2_at_most_one_cud :
    (∀ (env : WsEnv) (p : WsParams),
        List.countP isCUD (tfe_workspace_main env p).2 ≤ 1) ∧
      (∀ (env : VcsEnv) (p : VcsParams),
        List.countP isCUD (tfe_vcs_connection_main env p).2 ≤ 1) :=
  ⟨fun env p => (tfe_workspace_main_ext env p).1,
   fun env p => (tfe_vcs_connection_main_ext env p).1⟩

/-- C6: with check mode (dry run) enabled no mutating call is ever made
by `tfe_workspace.main` or `tfe_vcs_connection.main`, while `changed=true`
is still reported when a change is detected (final conjunct: a dry run
over a workspace whose attributes differ reports `changed=true` with an
empty call log). -/
theorem claim6_dryrun_never_mutates :
    (∀ (env : WsEnv) (p : WsParams), p.check_mode = true →
        (tfe_workspace_main env p).2 = []) ∧
      (∀ (env : VcsEnv) (p : VcsParams), p.check_mode = true →
        (tfe_vcs_connection_main env p).2 = []) ∧
      tfe_workspace_main
        ⟨.ok [⟨"org1", "ext1"⟩], .ok (),
          .ok [⟨"ws-1", [("name", .pstr "w1"), ("locked", .pbool false), ("x", .pint 1)], none⟩],
          .ok [], .ok .pnone, .ok .pnone, .ok .pnone, .ok .pnone, .ok .pnone, .ok .pnone,
          .ok .pnone⟩
        ⟨"org1", some "w1", .present, none, none, none, some [("x", .pint 2)], true⟩ =
        (.exited true, []) := by
  refine ⟨fun env p h => (tfe_workspace_main_ext env p).2 h,
    fun env p h => (tfe_vcs_connection_main_ext env p).2 h, ?_⟩
  have hsub : is_subset (.pdict [("x", .pint 2)])
      (.pdict [("name", .pstr "w1"), ("locked", .pbool false), ("x", .pint 1)]) = .ok false := by
    simp [is_subset, is_subset_dict, pyContains, pyIndex, dictGet, pyEq,
      except_bind_ok, except_bind_err]
  simp [tfe_workspace_main, wsRequiredIfError, get_org_name_when_exists,
    showOpt, wsResolveId, anyWsNameEq, firstWsIdByName, dictGet, pyEq,
    wsPresentBlocks, wsAttrBlock, wsLockBlock, wsSshBlock, doMut, finish, hsub, pyTruthy,
    except_bind_ok, except_bind_err]

/-- Witness for C6: a concrete check-mode invocation makes no calls. -/
theorem claim6_dryrun_witness :
    (tfe_workspace_main
      ⟨.ok [], .ok (), .ok [], .ok [], .ok .pnone, .ok .pnone, .ok .pnone, .ok .pnone,
        .ok .pnone, .ok .pnone, .ok .pnone⟩
      ⟨"orgZ", some "wZ", .absent, none, none, none, none, true⟩).2 = [] :=
  claim6_dryrun_never_mutates.1 _ _ rfl

/-- C7: in `tfe_vcs_connection`, when the supplied client token matches no
OAuth client by id and two or more clients share that token as their
name, the invocation fails with the "multiple matches" message — distinct
from the "does not exist" message — and makes no mutating call. -/
theorem claim7_ambiguous_name (env : VcsEnv) (p : VcsParams) (c : String)
    (clients : List OClient) (n : Nat) (o : Option String)
    (hval : vcsRequiredIfError p = none)
    (hc : p.client = some c)
    (ho : get_org_name_when_exists env.orgsList p.organization true = .ok o)
    (hset : env.setOrg = .ok ())
    (hlist : env.listClients = .ok clients)
    (hid : clients.any (fun oc => oc.id == c) = false)
    (hcount : ocNameMatchCount clients (.pstr c) = .ok n)
    (h2 : 2 ≤ n) :
    tfe_vcs_connection_main env p =
        (.failed ("Found multiple OAuth Clients with \"" ++ c ++ "\" name in \"" ++
          showOpt o ++ "\" organization. Refer to OAuth Client by its ID."), []) ∧
      ("Found multiple OAuth Clients with \"" ++ c ++ "\" name in \"" ++ showOpt o ++
          "\" organization. Refer to OAuth Client by its ID.") ≠
        ("The supplied \"" ++ c ++ "\" OAuth Client does not exist in \"" ++ showOpt o ++
          "\" organization.") := by
  constructor
  · have hres : vcsResolveId p clients (showOpt o) =
        .error (.failed ("Found multiple OAuth Clients with \"" ++ c ++ "\" name in \"" ++
          showOpt o ++ "\" organization. Refer to OAuth Client by its ID.")) := by
      unfold vcsResolveId
      rw [hc]
      dsimp only
      rw [hcount]
      have hgt : n > 1 := by omega
      simp [hid, hgt]
    unfold tfe_vcs_connection_main
    rw [hval, ho, hset, hlist]
    dsimp only
    rw [hres]
  · intro h
    have hl := congrArg String.length h
    have e1 : ("Found multiple OAuth Clients with \"" : String).length = 35 := rfl
    have e2 : ("\" name in \"" : String).length = 11 := rfl
    have e3 : ("\" organization. Refer to OAuth Client by its ID." : String).length = 48 := rfl
    have e4 : ("The supplied \"" : String).length = 14 := rfl
    have e5 : ("\" OAuth Client does not exist in \"" : String).length = 34 := rfl
    have e6 : ("\" organization." : String).length = 15 := rfl
    simp only [String.length_append, e1, e2, e3, e4, e5, e6] at hl
    omega

/-- Witness for C7: two OAuth clients both named `"gh"`. -/
theorem claim7_ambiguous_name_witness :
    tfe_vcs_connection_main
        ⟨.ok [⟨"org1", "ext1"⟩], .ok (),
          .ok [⟨"oc-1", [("name", .pstr "gh")]⟩, ⟨"oc-2", [("name", .pstr "gh")]⟩],
          .ok .pnone, .ok .pnone, .ok .pnone, .ok .pnone⟩
        ⟨"org1", .absent, some "gh", none, false⟩ =
        (.failed ("Found multiple OAuth Clients with \"" ++ "gh" ++ "\" name in \"" ++
          showOpt (some "org1") ++ "\" organization. Refer to OAuth Client by its ID."), []) ∧
      ("Found multiple OAuth Clients with \"" ++ "gh" ++ "\" name in \"" ++
          showOpt (some "org1") ++ "\" organization. Refer to OAuth Client by its ID.") ≠
        ("The supplied \"" ++ "gh" ++ "\" OAuth Client does not exist in \"" ++
          showOpt (some "org1") ++ "\" organization.") :=
  claim7_ambiguous_name _ _ "gh"
    [⟨"oc-1", [("name", .pstr "gh")]⟩, ⟨"oc-2", [("name", .pstr "gh")]⟩] 2 (some "org1")
    rfl rfl rfl rfl rfl (by decide)
    (by simp [ocNameMatchCount, dictGet, pyEq, List.countP_cons]) (by decide)

/-- C3 counterexample: a boolean desired value IS satisfied by a numeric
observed value of equal magnitude — `is_subset({"x": True}, {"x": 1})`
returns `True`, because Python `bool` is an `int` subclass and
`True == 1`. -/
theorem claim3_bool_int_counterexample :
    is_subset (.pdict [("x", .pbool true)]) (.pdict [("x", .pint 1)]) = .ok true := by
  simp [is_subset, is_subset_dict, pyContains, pyIndex, dictGet, pyEq, bool2int,
    except_bind_ok, except_bind_err]

/-- C3 as amended: scalar pairs are compared with Python `==`: there is
no coercion between strings and numbers (`is_subset({"x": 1}, {"x": "1"})`
is `False`), but booleans equal their integer magnitudes, so a boolean
desired value IS satisfied by a numeric observed value of equal magnitude
(`is_subset({"x": True}, {"x": 1})` is `True`); in general a scalar
proposed value reduces to `pyEq`, Python's `==`. -/
theorem claim3_scalar_equality :
    is_subset (.pdict [("x", .pint 1)]) (.pdict [("x", .pstr "1")]) = .ok false ∧
      is_subset (.pdict [("x", .pbool true)]) (.pdict [("x", .pint 1)]) = .ok true ∧
      (∀ s o : PyVal, isScalar s = true → is_subset s o = .ok (pyEq s o)) := by
  refine ⟨?_, ?_, ?_⟩
  · simp [is_subset, is_subset_dict, pyContains, pyIndex, dictGet, pyEq,
      except_bind_ok, except_bind_err]
  · simp [is_subset, is_subset_dict, pyContains, pyIndex, dictGet, pyEq, bool2int,
      except_bind_ok, except_bind_err]
  · intro s o hs
    cases s <;> simp_all [isScalar, is_subset]

/-- Witness for the amended C3 at the scalar pair `1` versus `"1"`. -/
theorem claim3_scalar_equality_witness :
    isScalar (.pint 1) = true ∧
      is_subset (.pint 1) (.pstr "1") = .ok (pyEq (.pint 1) (.pstr "1")) :=
  ⟨rfl, claim3_scalar_equality.2.2 (.pint 1) (.pstr "1") rfl⟩

mutual

/-- The observed value is container-shaped wherever the proposed value
is: a proposed dict needs an observed dict (recursively at every shared
key), a proposed list needs an observed list (recursively against every
element the existential scan may touch), and a proposed scalar accepts
anything. -/
def containerAligned : PyVal → PyVal → Bool
  | .pdict d, .pdict e => containerAlignedDict d e
  | .pdict _, _ => false
  | .plist l, .plist m => containerAlignedList l m
  | .plist _, _ => false
  | _, _ => true
termination_by a _ => ((sizeOf a : Nat), 0, 0)

/-- Dict side of `containerAligned`: each proposed entry whose key exists
in the observed dict is aligned with the value found there. -/
def containerAlignedDict : List (String × PyVal) → List (String × PyVal) → Bool
  | [], _ => true
  | (k, v) :: rest, e =>
      (match dictGet e k with
       | some w => containerAligned v w
       | none => true) && containerAlignedDict rest e
termination_by d _ => ((sizeOf d : Nat), 0, 0)

/-- List side of `containerAligned`: every proposed element is aligned
with every observed element. -/
def containerAlignedList : List PyVal → List PyVal → Bool
  | [], _ => true
  | x :: rest, m => containerAlignedElems x m && containerAlignedList rest m
termination_by l _ => ((sizeOf l : Nat), 0, 0)

/-- One proposed element aligned with every observed element. -/
def containerAlignedElems (x : PyVal) : List PyVal → Bool
  | [] => true
  | y :: ys => containerAligned x y && containerAlignedElems x ys
termination_by ys => ((sizeOf x : Nat), 1, ys.length)

end

/-- On aligned inputs, `is_subset` and each of its loops return a boolean
rather than raising; proved by strong induction on a size measure. -/
theorem alignedOk (n : Nat) :
    (∀ sub sup : PyVal, 2 * sizeOf sub ≤ n → containerAligned sub sup = true →
      ∃ b, is_subset sub sup = .ok b) ∧
    (∀ (d e : List (String × PyVal)), 2 * sizeOf d ≤ n →
      containerAlignedDict d e = true → ∃ b, is_subset_dict d (.pdict e) = .ok b) ∧
    (∀ (l m : List PyVal), 2 * sizeOf l ≤ n → containerAlignedList l m = true →
      ∃ b, is_subset_list l (.plist m) = .ok b) ∧
    (∀ (x : PyVal) (m : List PyVal), 2 * sizeOf x + 1 ≤ n →
      containerAlignedElems x m = true → ∃ b, is_subset_any x m = .ok b) := by
  induction n using Nat.strong_induction_on with
  | _ n ih =>
    refine ⟨?_, ?_, ?_, ?_⟩
    · intro sub sup hsz hal
      cases sub with
      | pstr s => exact ⟨pyEq (.pstr s) sup, by simp [is_subset]⟩
      | pint i => exact ⟨pyEq (.pint i) sup, by simp [is_subset]⟩
      | pbool b => exact ⟨pyEq (.pbool b) sup, by simp [is_subset]⟩
      | pnone => exact ⟨pyEq .pnone sup, by simp [is_subset]⟩
      | pdict d =>
          cases sup with
          | pdict e =>
              have hd : containerAlignedDict d e = true := by
                simpa [containerAligned] using hal
              have h1 : sizeOf (PyVal.pdict d) = 1 + sizeOf d := by simp
              have hsz' : 2 * sizeOf d < n := by omega
              obtain ⟨b, hb⟩ := (ih (2 * sizeOf d) hsz').2.1 d e (le_refl _) hd
              exact ⟨b, by simp [is_subset, hb]⟩
          | pstr s => simp [containerAligned] at hal
          | pint i => simp [containerAligned] at hal
          | pbool b => simp [containerAligned] at hal
          | pnone => simp [containerAligned] at hal
          | plist m => simp [containerAligned] at hal
      | plist l =>
          cases sup with
          | plist m =>
              have hl : containerAlignedList l m = true := by
                simpa [containerAligned] using hal
              have h1 : sizeOf (PyVal.plist l) = 1 + sizeOf l := by simp
              have hsz' : 2 * sizeOf l < n := by omega
              obtain ⟨b, hb⟩ := (ih (2 * sizeOf l) hsz').2.2.1 l m (le_refl _) hl
              exact ⟨b, by simp [is_subset, hb]⟩
          | pstr s => simp [containerAligned] at hal
          | pint i => simp [containerAligned] at hal
          | pbool b => simp [containerAligned] at hal
          | pnone => simp [containerAligned] at hal
          | pdict e => simp [containerAligned] at hal
    · intro d e hsz hd
      cases d with
      | nil => exact ⟨true, by simp [is_subset_dict]⟩
      | cons kv rest =>
          obtain ⟨k, v⟩ := kv
          rw [containerAlignedDict, Bool.and_eq_true] at hd
          obtain ⟨hdk, hdrest⟩ := hd
          have h1 := List.cons.sizeOf_spec (k, v) rest
          have h2 := Prod.mk.sizeOf_spec k v
          cases hmem : e.any (fun kv => kv.1 == k) with
          | false =>
              exact ⟨false, by simp [is_subset_dict, pyContains, hmem, except_bind_ok, except_pure]⟩
          | true =>
              have hfs : (e.find? (fun kv => kv.1 == k)).isSome := by
                rw [List.find?_isSome]
                simpa using List.any_eq_true.mp hmem
              obtain ⟨kv0, hfind⟩ := Option.isSome_iff_exists.mp hfs
              have hdg : dictGet e k = some kv0.2 := by simp [dictGet, hfind]
              rw [hdg] at hdk
              have hszv : 2 * sizeOf v < n := by omega
              obtain ⟨b, hb⟩ := (ih (2 * sizeOf v) hszv).1 v kv0.2 (le_refl _) hdk
              have hszrest : 2 * sizeOf rest < n := by omega
              obtain ⟨b2, hb2⟩ :=
                (ih (2 * sizeOf rest) hszrest).2.1 rest e (le_refl _) hdrest
              cases b with
              | false =>
                  exact ⟨false, by
                    simp [is_subset_dict, pyContains, hmem, pyIndex, hdg, hb,
                      except_bind_ok, except_pure]⟩
              | true =>
                  exact ⟨b2, by
                    simp [is_subset_dict, pyContains, hmem, pyIndex, hdg, hb, hb2,
                      except_bind_ok, except_pure]⟩
    · intro l m hsz hl
      cases l with
      | nil => exact ⟨true, by simp [is_subset_list]⟩
      | cons x rest =>
          rw [containerAlignedList, Bool.and_eq_true] at hl
          obtain ⟨hx, hrest⟩ := hl
          have h1 := List.cons.sizeOf_spec x rest
          have hszx : 2 * sizeOf x + 1 < n := by omega
          obtain ⟨b, hb⟩ := (ih (2 * sizeOf x + 1) hszx).2.2.2 x m (le_refl _) hx
          have hszrest : 2 * sizeOf rest < n := by omega
          obtain ⟨b2, hb2⟩ := (ih (2 * sizeOf rest) hszrest).2.2.1 rest m (le_refl _) hrest
          cases b with
          | false => exact ⟨false, by simp [is_subset_list, pyIter, hb, except_bind_ok, except_pure]⟩
          | true => exact ⟨b2, by simp [is_subset_list, pyIter, hb, hb2, except_bind_ok, except_pure]⟩
    · intro x m hsz he
      revert he
      induction m with
      | nil => exact fun _ => ⟨false, by simp [is_subset_any]⟩
      | cons y ys ihm =>
          intro he
          rw [containerAlignedElems, Bool.and_eq_true] at he
          obtain ⟨hxy, hys⟩ := he
          have hszx : 2 * sizeOf x < n := by omega
          obtain ⟨b, hb⟩ := (ih (2 * sizeOf x) hszx).1 x y (le_refl _) hxy
          cases b with
          | true => exact ⟨true, by simp [is_subset_any, hb, except_bind_ok, except_pure]⟩
          | false =>
              obtain ⟨b2, hb2⟩ := ihm hys
              exact ⟨b2, by simp [is_subset_any, hb, hb2, except_bind_ok, except_pure]⟩

/-- C10: `is_subset` is not total on arbitrary JSON-like pairs — a
proposed mapping or sequence over a scalar observed value raises a
`TypeError` (`is_subset({"a": 1}, 5)` and `is_subset([1], 5)` both
raise, embedded as `Except.error`) — while it is guaranteed to return a
boolean whenever the observed structure is container-shaped wherever the
proposed structure is (`containerAligned`). -/
theorem claim10_is_subset_partiality :
    is_subset (.pdict [("a", .pint 1)]) (.pint 5) = .error () ∧
      is_subset (.plist [.pint 1]) (.pint 5) = .error () ∧
      (∀ sub sup : PyVal, containerAligned sub sup = true →
        ∃ b, is_subset sub sup = .ok b) := by
  refine ⟨?_, ?_, ?_⟩
  · simp [is_subset, is_subset_dict, pyContains, except_bind_ok, except_bind_err]
  · simp [is_subset, is_subset_list, pyIter, except_bind_ok, except_bind_err]
  · intro sub sup hal
    exact (alignedOk (2 * sizeOf sub)).1 sub sup (le_refl _) hal

/-- Witness for C10's guarantee on an aligned dict pair. -/
theorem claim10_is_subset_partiality_witness :
    containerAligned (.pdict [("k", .pint 7)]) (.pdict [("k", .pint 7)]) = true ∧
      ∃ b, is_subset (.pdict [("k", .pint 7)]) (.pdict [("k", .pint 7)]) = .ok b :=
  ⟨by simp [containerAligned, containerAlignedDict, dictGet],
   claim10_is_subset_partiality.2.2 _ _
     (by simp [containerAligned, containerAlignedDict, dictGet])⟩
